import Mathlib

/-!
Shallow embedding of the chat orchestration graph and its chart tools
(`app/AI/chat_graph/chat_graph.py`, `app/AI/chat_graph/tools/tools.py`,
`app/AI/chat_graph/nodes/tool_node.py`), together with theorems settling
the spec's claims about routing, termination, error escalation, column
classification and chart-generation error handling.
-/

/-- Python's `needle in hay` substring test on strings. -/
def strContains (hay needle : String) : Bool :=
  decide (needle.data <:+: hay.data)

/-- Python's `s.startswith(pre)` prefix test. -/
def strStartsWith (s pre : String) : Bool :=
  decide (pre.data <+: s.data)

/-- Python truthiness of a string: non-empty. `None` content is modelled as `""`
(the code always guards with `or ""` or a truthiness test first). -/
def pyTruthy (s : String) : Bool :=
  !s.data.isEmpty

/-- A tool invocation request carried on an assistant message
(langchain `tool_call` dict: `name`, `args`, `id`). Arguments are
passed through verbatim to the handler, so they are kept opaque. -/
structure ToolCall where
  name : String
  args : String
  id : String
deriving DecidableEq, Repr

/-- A conversation message. Only `content` is inspected by the routing
functions; `tool_calls` is `none` for message classes without the
attribute (accessing it raises `AttributeError` in the code). -/
structure Msg where
  content : String
  tool_calls : Option (List ToolCall)
deriving DecidableEq, Repr

/-- The graph `State` dict threaded through the nodes
(`app/AI/chat_graph/state.py` plus the keys set in `ChatGraph.invoke`). -/
structure ChatState where
  chat_id : String
  user_question : String
  file : Option String
  iterations : Nat
  messages : List Msg
  needs_chart : Bool
deriving Repr

/-- A conditional-edge routing decision: `"Action"` or `END`. -/
inductive Decision where
  | Action
  | End
deriving DecidableEq, Repr

namespace ChatGraph

/-- `ChatGraph.count_errors_consecutivos`: given the instance counter
`self.erros_consecutivos` and the last message, return the updated counter
(incremented when the content carries a database-error signature, reset to
zero otherwise). -/
def count_errors_consecutivos (erros_consecutivos : Nat) (ultima_mensagem : Msg) : Nat :=
  let content := ultima_mensagem.content
  if strContains content "ProgrammingError" || strContains content "Unknown column" then
    erros_consecutivos + 1
  else
    0

/-- `ChatGraph.should_continue` as a function of the iteration ceiling, the
instance counter `self.erros_consecutivos` and the state; returns the routing
decision together with the counter's new value (the Python method mutates the
instance field via `count_errors_consecutivos`). -/
def should_continue (max_iterations erros_consecutivos : Nat) (s : ChatState) :
    Decision × Nat :=
  if s.iterations ≥ max_iterations then
    (Decision.End, erros_consecutivos)
  else
    match s.messages.getLast? with
    | none => (Decision.Action, erros_consecutivos)
    | some last =>
      let erros2 := count_errors_consecutivos erros_consecutivos last
      if erros2 > 3 then
        (Decision.End, erros2)
      else if pyTruthy last.content && strStartsWith last.content "data:image/png;base64" then
        (Decision.End, erros2)
      else
        (Decision.Action, erros2)

/-- `ChatGraph.should_end_after_environment`: ends the chart flow when the
last message is a base64 image, otherwise loops back to `llm_call`. -/
def should_end_after_environment (s : ChatState) : Decision :=
  match s.messages.getLast? with
  | none => Decision.Action
  | some last =>
    if pyTruthy last.content && strStartsWith last.content "data:image/png;base64" then
      Decision.End
    else
      Decision.Action

/-- `ChatGraph.llm_call_wrapper`: increments `state["iterations"]` and then
extends `messages` with the LLM node's response (the node sees the already
incremented state, so the response oracle is applied to it). -/
def llm_call_wrapper (llm : ChatState → List Msg) (s : ChatState) : ChatState :=
  let s1 : ChatState := { s with iterations := s.iterations + 1 }
  { s1 with messages := s1.messages ++ llm s1 }

/-- `ChatGraph.tool_node_wrapper`: extends `messages` with the tool node's
result messages (the tool node itself is embedded separately; here it is an
oracle, since the loop claims only depend on message contents). -/
def tool_node_wrapper (toolRes : ChatState → List Msg) (s : ChatState) : ChatState :=
  { s with messages := s.messages ++ toolRes s }

/-- If the iteration counter has reached the ceiling, `should_continue`
routes to `END`. -/
lemma should_continue_end_of_ge (max_iterations erros : Nat) (s : ChatState)
    (h : max_iterations ≤ s.iterations) :
    (should_continue max_iterations erros s).1 = Decision.End := by
  simp [should_continue, h]

/-- If `should_continue` does not route to `END`, the counter is still below
the ceiling. -/
lemma lt_of_should_continue_ne_end (max_iterations erros : Nat) (s : ChatState)
    (h : (should_continue max_iterations erros s).1 ≠ Decision.End) :
    s.iterations < max_iterations := by
  by_contra hge
  exact h (should_continue_end_of_ge max_iterations erros s (not_lt.mp hge))

/-- Result of running the chart-path loop: the state at `END`, the final
value of the instance error counter, and the number of visits to the
`llm_call` node. -/
structure LoopResult where
  state : ChatState
  erros : Nat
  visits : Nat

/-- Record one more visit to the `llm_call` node in a loop result. -/
def LoopResult.succVisit (r : LoopResult) : LoopResult :=
  ⟨r.state, r.erros, r.visits + 1⟩

/-- The chart-path loop of the compiled graph: `llm_call` (wrapper), then
the `should_continue` conditional edge; on `"Action"`, the `environment`
node, then the `should_end_after_environment` conditional edge; on
`"Action"`, back to `llm_call`. LLM and tool outputs are oracles. -/
def chartLoop (llm toolRes : ChatState → List Msg) (max_iterations erros : Nat)
    (s : ChatState) : LoopResult :=
  if h : (should_continue max_iterations erros (llm_call_wrapper llm s)).1
      = Decision.End then
    ⟨llm_call_wrapper llm s,
     (should_continue max_iterations erros (llm_call_wrapper llm s)).2, 1⟩
  else if should_end_after_environment (tool_node_wrapper toolRes (llm_call_wrapper llm s))
      = Decision.End then
    ⟨tool_node_wrapper toolRes (llm_call_wrapper llm s),
     (should_continue max_iterations erros (llm_call_wrapper llm s)).2, 1⟩
  else
    LoopResult.succVisit
      (chartLoop llm toolRes max_iterations
        (should_continue max_iterations erros (llm_call_wrapper llm s)).2
        (tool_node_wrapper toolRes (llm_call_wrapper llm s)))
termination_by max_iterations - s.iterations
decreasing_by
  have hlt : (llm_call_wrapper llm s).iterations < max_iterations :=
    lt_of_should_continue_ne_end _ _ _ h
  simp only [llm_call_wrapper, tool_node_wrapper] at hlt ⊢
  omega

end ChatGraph

/-- A database cell value as seen by pandas numeric coercion
(`pd.to_numeric(col, errors='coerce')` in `classify_columns`): a numeric
value coerces to itself, a numeric-looking string to its value, any other
string and NULL coerce to NaN, and an exotic object makes the coercion of
the whole column raise (the `except` branch of `classify_columns`). -/
inductive Cell where
  | num (q : ℚ)
  | numStr (q : ℚ)
  | nonNum (s : String)
  | null
  | exotic
deriving DecidableEq, Repr

/-- `pd.to_numeric(cell, errors='coerce')` on a non-exotic cell: `some`
value on success, `none` for NaN. -/
def toNumericCell : Cell → Option ℚ
  | Cell.num q => some q
  | Cell.numStr q => some q
  | Cell.nonNum _ => none
  | Cell.null => none
  | Cell.exotic => none

/-- Whether coercing this cell raises (making `pd.to_numeric` on the
column raise). -/
def cellRaises : Cell → Bool
  | Cell.exotic => true
  | _ => false

/-- A tabular query result,
`pd.DataFrame(result.fetchall(), columns=result.keys())`: ordered named
columns of cells. -/
structure Df where
  cols : List (String × List Cell)
deriving DecidableEq, Repr

/-- `df.empty`: the frame has no rows (equivalently for rectangular data,
every column's cell list is empty) or no columns at all. -/
def Df.isEmpty (df : Df) : Bool :=
  df.cols.all (fun c => c.2.isEmpty)

/-- `df[name]`: the cells of the (first) column with this name. -/
def Df.col (df : Df) (name : String) : List Cell :=
  match df.cols.find? (fun c => c.1 = name) with
  | some c => c.2
  | none => []

/-- `1 - converted.isna().sum() / len(converted)` from `classify_columns`.
Python computes this in binary floating point; `none` models the IEEE NaN
produced by the `0/0` of a zero-length column (any comparison against NaN
is false). At the 80% boundary the float and rational comparisons agree:
e.g. for 80 valid cells out of 100, `1 - float(0.2)` rounds to exactly
`float(0.8)`. -/
def notNaRatio (cells : List Cell) : Option ℚ :=
  if cells.length = 0 then none
  else some (1 - ((cells.filter (fun c => (toNumericCell c).isNone)).length : ℚ)
    / (cells.length : ℚ))

/-- One column's pass through `classify_columns`' `try`/`except`: `true`
when the column is appended to `numeric_cols` (conversion does not raise
and `not_na_ratio >= 0.8`), `false` when it is appended to `cat_cols`.
The ratio test is carried out in exact integer arithmetic
(`1 - na/n ≥ 4/5` iff `n ≠ 0` and `4*n ≤ 5*(n - na)`; a zero-length
column gives the NaN ratio, which compares false); the lemma
`columnIsNumeric_iff_ratio` proves this equal to the directly transcribed
rational comparison on `notNaRatio`. -/
def columnIsNumeric (cells : List Cell) : Bool :=
  if cells.any cellRaises then false
  else
    let n := cells.length
    let na := (cells.filter (fun c => (toNumericCell c).isNone)).length
    decide (n ≠ 0) && decide (4 * n ≤ 5 * (n - na))

/-- `classify_columns(df)`: partitions the column names, in column order,
into `(numeric_cols, cat_cols)`. -/
def classify_columns (df : Df) : List String × List String :=
  df.cols.foldr
    (fun c acc =>
      if columnIsNumeric c.2 then (c.1 :: acc.1, acc.2) else (acc.1, c.1 :: acc.2))
    ([], [])

/-- The fraction of a column's cells that coerce to a number (the spec's
phrasing of the classification rule, for comparison with the code's
`1 - isna/len` computation). -/
def parseFraction (cells : List Cell) : ℚ :=
  ((cells.filter (fun c => (toNumericCell c).isSome)).length : ℚ) / (cells.length : ℚ)

/-- The outcome dict of `generate_chart` / `generate_generic_heatmap`:
either `{"image": ..., "message": ...}` or `{"error": ...}`. -/
inductive ChartOutcome where
  | image (dataUri message : String)
  | error (message : String)
deriving DecidableEq, Repr

/-- `ChartOutcome.error` discriminator. -/
def ChartOutcome.isError : ChartOutcome → Bool
  | ChartOutcome.error _ => true
  | ChartOutcome.image _ _ => false

/-- The tail of `generate_chart` shared by all successful branches:
matplotlib figure work plus `savefig`/base64 serialization, abstracted as
an oracle. `Except.ok b64` yields the success dict with the data-URI
prefix; `Except.error e` models an exception raised while rendering, which
the surrounding `try`/`except` converts to `{"error": str(e)}`. -/
def renderFigure (render : Except String String) (chart_type : String) : ChartOutcome :=
  match render with
  | Except.ok b64 =>
    ChartOutcome.image ("data:image/png;base64," ++ b64)
      ("Gráfico '" ++ chart_type ++ "' gerado com sucesso.")
  | Except.error e => ChartOutcome.error e

/-- `generate_chart(query, chart_type, title)`. The database execution is
abstracted as `queryResult` (`Except.error e` models an exception raised
by `db.execute`, which the `try`/`except` converts to `{"error": str(e)}`);
rendering is abstracted by the `render` oracle. All validation branches
mirror `tools.py` lines 112-243. The `title` argument only affects the
rendered figure, never the outcome shape. -/
def generate_chart (queryResult : Except String Df) (render : Except String String)
    (chart_type : String) (title : String) : ChartOutcome :=
  match queryResult with
  | Except.error e => ChartOutcome.error e
  | Except.ok df =>
    if df.isEmpty then ChartOutcome.error "Nenhum dado encontrado pela consulta."
    else
      let numeric_cols := (classify_columns df).1
      let cat_cols := (classify_columns df).2
      if chart_type = "pie" then
        if cat_cols.length < 1 ∨ numeric_cols.length < 1 then
          ChartOutcome.error
            "Para gráfico de pizza, é necessário pelo menos 1 coluna categórica e 1 numérica."
        else
          let measure_col := numeric_cols.headD ""
          if (df.col measure_col).all (fun c => (toNumericCell c).isNone) then
            ChartOutcome.error
              ("A coluna '" ++ measure_col ++ "' não pôde ser interpretada como numérica.")
          else renderFigure render chart_type
      else if chart_type = "bar" ∨ chart_type = "line" then
        if cat_cols.length = 0 ∧ numeric_cols.length ≥ 1 then
          renderFigure render chart_type
        else if cat_cols.length = 1 ∧ numeric_cols.length ≥ 1 then
          renderFigure render chart_type
        else if cat_cols.length ≥ 2 ∧ numeric_cols.length ≥ 1 then
          renderFigure render chart_type
        else
          ChartOutcome.error
            ("Não foi possível gerar gráfico '" ++ chart_type ++ "' com "
              ++ toString cat_cols.length ++ " colunas categóricas e "
              ++ toString numeric_cols.length ++ " colunas numéricas.")
      else if chart_type = "scatter" then
        if numeric_cols.length < 2 then
          ChartOutcome.error "Scatter requer pelo menos 2 colunas numéricas (para X e Y)."
        else renderFigure render chart_type
      else if chart_type = "heatmap" then
        if cat_cols.length < 2 ∨ numeric_cols.length < 1 then
          ChartOutcome.error "Heatmap requer pelo menos 2 colunas categóricas e 1 coluna numérica."
        else renderFigure render chart_type
      else
        ChartOutcome.error
          ("Tipo de gráfico '" ++ chart_type ++ "' não reconhecido. Use: bar, line, pie, scatter, heatmap.")

/-- The chart types accepted by `generate_chart`'s dispatch. -/
def allowedChartTypes : List String :=
  ["bar", "line", "pie", "scatter", "heatmap"]

/-- Python's `str.upper()` (ASCII case mapping, which suffices for the SQL
keywords involved). -/
def pyUpper (s : String) : String :=
  String.mk (s.data.map Char.toUpper)

/-- The result of `db.execute(text(query))` as consumed by
`consult_database`: fetched rows (each already stringified by `str(row)`),
a rowcount for row-less statements, or a raised exception. -/
inductive DbExec where
  | rows (rs : List String)
  | noRows (rowcount : Int)
  | raises (e : String)

/-- The `forbidden` keyword list of `consult_database`. -/
def forbidden_commands : List String :=
  ["DELETE", "ALTER", "CREATE", "DROP", "UPDATE", "INSERT", "TRUNCATE", "REPLACE"]

/-- `consult_database(query)`: reject the query whenever any forbidden
keyword occurs as a substring of the upper-cased query text; otherwise run
it through the database (abstracted by `execute`) and render the result;
exceptions are caught and rendered as the error string. -/
def consult_database (execute : String → DbExec) (query : String) : String :=
  if forbidden_commands.any (fun cmd => strContains (pyUpper query) cmd) then
    "❌ Apenas consultas de leitura são permitidas."
  else
    match execute query with
    | DbExec.rows rs => String.intercalate "\n" rs
    | DbExec.noRows rc => "ℹ️ Linhas afetadas: " ++ toString rc
    | DbExec.raises e => "⚠️ Erro ao executar consulta: " ++ e

/-- A tool handler's return value as seen by `tool_node`: a dict with
optional `image`/`error` fields (plus its `str()` rendering used when
neither is present), or a non-dict value rendered by `str()`. -/
inductive ToolResult where
  | dictRes (image : Option String) (error : Option String) (text : String)
  | plain (text : String)

/-- `tool_node`'s normalization of one handler observation into message
content: an `image` field wins, then an `error` field (wrapped in the
`"Erro ao gerar gráfico: ..."` text), else the stringified result. -/
def normalize_observation : ToolResult → String
  | ToolResult.dictRes (some img) _ _ => img
  | ToolResult.dictRes none (some err) _ => "Erro ao gerar gráfico: " ++ err
  | ToolResult.dictRes none none text => text
  | ToolResult.plain text => text

/-- A `ToolMessage(content=..., tool_call_id=...)`. -/
structure ToolMessage where
  content : String
  tool_call_id : String
deriving DecidableEq, Repr

/-- The `for tool_call in last_msg_tool_calls` loop of `tool_node`: an
unregistered tool name is logged and skipped; otherwise the handler is
invoked and its observation normalized into a `ToolMessage` tagged with
the originating call id. -/
def runToolCalls (tools_by_name : String → Option (String → ToolResult)) :
    List ToolCall → List ToolMessage
  | [] => []
  | tc :: rest =>
    match tools_by_name tc.name with
    | none => runToolCalls tools_by_name rest
    | some tool =>
      ⟨normalize_observation (tool tc.args), tc.id⟩ :: runToolCalls tools_by_name rest

/-- `tool_node(state, tools_by_name)`: grabs
`state["messages"][-1].tool_calls` (an `IndexError` on an empty list or an
`AttributeError` on a message without the attribute yields `[]`), then
executes the batch. -/
def tool_node (state : ChatState) (tools_by_name : String → Option (String → ToolResult)) :
    List ToolMessage :=
  match state.messages.getLast? with
  | none => []
  | some m =>
    match m.tool_calls with
    | none => []
    | some calls => runToolCalls tools_by_name calls

/-- The outcome of `graph.invoke(state)` inside `ChatGraph.invoke`: a final
state, or a raised `GraphRecursionError`. -/
inductive GraphRunResult where
  | ok (final : ChatState)
  | recursionError (e : String)

/-- The plain `{"sender": ..., "content": ...}` dict built by the
recursion-error handler of `ChatGraph.invoke`. -/
structure DictMsg where
  sender : String
  content : String
deriving DecidableEq, Repr

/-- A message in the value returned by `ChatGraph.invoke`: either a message
object from the graph's final state, or the synthetic dict. -/
inductive InvokeMessage where
  | fromGraph (m : Msg)
  | dict (d : DictMsg)
deriving DecidableEq, Repr

/-- The dict returned by `ChatGraph.invoke`, reduced to its `messages`
key. -/
structure InvokeResult where
  messages : List InvokeMessage
deriving DecidableEq, Repr

namespace ChatGraph

/-- The initial state dict built by `ChatGraph.invoke` (`needs_chart` is
absent from the dict, which reads back as falsy: modelled `false`). -/
def initial_state (chat_id user_question : String) (file : Option String) : ChatState :=
  ⟨chat_id, user_question, file, 0, [], false⟩

/-- `ChatGraph.invoke`: runs the compiled graph (abstracted by `run`);
a `GraphRecursionError` is caught and converted into a single synthetic
agent message; any normal result is passed through. -/
def invoke (run : ChatState → GraphRunResult) (chat_id user_question : String)
    (file : Option String) : InvokeResult :=
  match run (initial_state chat_id user_question file) with
  | GraphRunResult.ok final => ⟨final.messages.map InvokeMessage.fromGraph⟩
  | GraphRunResult.recursionError _ =>
    ⟨[InvokeMessage.dict ⟨"agent",
      "O fluxo excedeu o limite de iterações. Por favor, refine sua consulta ou tente novamente."⟩]⟩

end ChatGraph


namespace ChatGraph

/-- Each visit to the chart LLM-call node increments the iteration counter
by exactly one. -/
lemma llm_call_wrapper_iterations (llm : ChatState → List Msg) (s : ChatState) :
    (llm_call_wrapper llm s).iterations = s.iterations + 1 := rfl

/-- The tool-execution node leaves the iteration counter unchanged. -/
lemma tool_node_wrapper_iterations (toolRes : ChatState → List Msg) (s : ChatState) :
    (tool_node_wrapper toolRes s).iterations = s.iterations := rfl

/-- At the end of the chart loop, the iteration counter equals its initial
value plus the number of LLM-call visits made. -/
lemma chartLoop_iterations (llm toolRes : ChatState → List Msg)
    (max_iterations erros : Nat) (s : ChatState) :
    (chartLoop llm toolRes max_iterations erros s).state.iterations =
      s.iterations + (chartLoop llm toolRes max_iterations erros s).visits := by
  induction erros, s using chartLoop.induct llm toolRes max_iterations with
  | case1 erros s h =>
    rw [chartLoop, dif_pos h]
    simp [llm_call_wrapper]
  | case2 erros s h henv =>
    rw [chartLoop, dif_neg h, if_pos henv]
    simp [llm_call_wrapper, tool_node_wrapper]
  | case3 erros s h henv ih =>
    rw [chartLoop, dif_neg h, if_neg henv]
    simp only [LoopResult.succVisit]
    rw [ih]
    simp [llm_call_wrapper, tool_node_wrapper]
    omega

/-- Started strictly below the ceiling, the chart loop makes at most
`max_iterations - s.iterations` LLM-call visits. -/
lemma chartLoop_visits_le (llm toolRes : ChatState → List Msg)
    (max_iterations erros : Nat) (s : ChatState) :
    s.iterations < max_iterations →
      (chartLoop llm toolRes max_iterations erros s).visits ≤
        max_iterations - s.iterations := by
  induction erros, s using chartLoop.induct llm toolRes max_iterations with
  | case1 erros s hd =>
    intro h
    rw [chartLoop, dif_pos hd]
    show 1 ≤ max_iterations - s.iterations
    omega
  | case2 erros s hd henv =>
    intro h
    rw [chartLoop, dif_neg hd, if_pos henv]
    show 1 ≤ max_iterations - s.iterations
    omega
  | case3 erros s hd henv ih =>
    intro h
    have hlt : (llm_call_wrapper llm s).iterations < max_iterations :=
      lt_of_should_continue_ne_end _ _ _ hd
    rw [llm_call_wrapper_iterations] at hlt
    have ih2 := ih (by
      rw [tool_node_wrapper_iterations, llm_call_wrapper_iterations]
      exact hlt)
    rw [tool_node_wrapper_iterations, llm_call_wrapper_iterations] at ih2
    rw [chartLoop, dif_neg hd, if_neg henv]
    simp only [LoopResult.succVisit]
    omega

/-- A message whose content starts with the image data-URI prefix is truthy
(non-empty), so the `last.content and last.content.startswith(...)` guard
passes. -/
lemma pyTruthy_of_image_uri (s : String)
    (h : strStartsWith s "data:image/png;base64" = true) : pyTruthy s = true := by
  have hp : ("data:image/png;base64".data) <+: s.data := of_decide_eq_true h
  unfold pyTruthy
  rcases hs : s.data with _ | ⟨a, l⟩
  · rw [hs] at hp
    obtain ⟨t, ht⟩ := hp
    exact absurd (List.append_eq_nil.mp ht).1 (by decide)
  · simp

end ChatGraph

/-- The `not_na_ratio >= 0.8` test, written over ℚ as the code writes it,
is equivalent to the exact integer comparison used in `columnIsNumeric`. -/
lemma ratio_ge_iff (n na : Nat) (hn : n ≠ 0) (hna : na ≤ n) :
    ((1 : ℚ) - (na : ℚ)/(n : ℚ) ≥ (4 : ℚ)/5) ↔ 4 * n ≤ 5 * (n - na) := by
  have hn0 : (0 : ℚ) < (n : ℚ) := by exact_mod_cast Nat.pos_of_ne_zero hn
  rw [ge_iff_le, le_sub_iff_add_le, div_add_div _ _ (by norm_num) (ne_of_gt hn0),
    div_le_one (by positivity)]
  constructor
  · intro h
    have h2 : 4 * n + 5 * na ≤ 5 * n := by exact_mod_cast h
    omega
  · intro h
    have h2 : 4 * n + 5 * na ≤ 5 * n := by omega
    exact_mod_cast h2

/-- The integer form of the ratio test agrees with the code's
`not_na_ratio >= 0.8` comparison on the rational ratio (NaN, modelled as
`none`, compares false). -/
lemma columnIsNumeric_iff_ratio (cells : List Cell) :
    columnIsNumeric cells = true ↔
      (cells.any cellRaises = false ∧
        ∃ r : ℚ, notNaRatio cells = some r ∧ r ≥ (4 : ℚ)/5) := by
  unfold columnIsNumeric notNaRatio
  rcases hraise : cells.any cellRaises with _ | _
  · simp only [hraise, if_false, Bool.false_eq_true]
    by_cases hnz : cells.length = 0
    · simp [hnz]
    · have hna : (cells.filter (fun c => (toNumericCell c).isNone)).length ≤ cells.length :=
        List.length_filter_le _ _
      simp only [if_neg hnz, Bool.and_eq_true, decide_eq_true_eq, ne_eq, hnz,
        not_false_eq_true, true_and, Option.some.injEq]
      rw [← ratio_ge_iff cells.length
        (cells.filter (fun c => (toNumericCell c).isNone)).length hnz hna]
      constructor
      · intro h
        exact ⟨_, rfl, h⟩
      · rintro ⟨r, hr, hge⟩
        rw [if_neg not_false] at hr
        rw [Option.some.injEq] at hr
        rw [hr]
        exact hge
  · simp [hraise]

/-- Cells either coerce or are NaN: the two filters partition the column. -/
lemma length_filter_isSome_add_isNone (cells : List Cell) :
    (cells.filter (fun c => (toNumericCell c).isSome)).length +
      (cells.filter (fun c => (toNumericCell c).isNone)).length = cells.length := by
  induction cells with
  | nil => rfl
  | cons c rest ih =>
    rcases hx : toNumericCell c with _ | q <;>
      simp [List.filter_cons, hx] <;> omega

/-- The spec-side `parseFraction ≥ 0.8` comparison agrees with the exact
integer comparison for a non-empty column. -/
lemma parse_ge_iff (n v : Nat) (hn : n ≠ 0) :
    ((v : ℚ)/(n : ℚ) ≥ (4 : ℚ)/5) ↔ 4 * n ≤ 5 * v := by
  have hn0 : (0 : ℚ) < (n : ℚ) := by exact_mod_cast Nat.pos_of_ne_zero hn
  rw [ge_iff_le, div_le_div_iff (by norm_num) hn0]
  constructor
  · intro h
    have h2 : 4 * n ≤ v * 5 := by exact_mod_cast h
    omega
  · intro h
    have h2 : 4 * n ≤ v * 5 := by omega
    exact_mod_cast h2

/-- A column is classified numeric exactly when its coercion does not raise
and the fraction of its cells that coerce to a number is at least 0.8 (an
empty column is classified categorical: its NaN ratio compares false, and
Lean's `0/0 = 0` convention on the right-hand side likewise fails the
threshold). -/
lemma columnIsNumeric_iff_parseFraction (cells : List Cell) :
    columnIsNumeric cells = true ↔
      (cells.any cellRaises = false ∧ parseFraction cells ≥ (4 : ℚ)/5) := by
  unfold columnIsNumeric parseFraction
  rcases hraise : cells.any cellRaises with _ | _
  · simp only [hraise, if_false, Bool.false_eq_true, true_and]
    by_cases hnz : cells.length = 0
    · rw [List.length_eq_zero] at hnz
      subst hnz
      simp
    · have hcnt := length_filter_isSome_add_isNone cells
      simp only [if_neg hnz, Bool.and_eq_true, decide_eq_true_eq, ne_eq, hnz,
        not_false_eq_true, true_and]
      rw [parse_ge_iff cells.length
        (cells.filter (fun c => (toNumericCell c).isSome)).length hnz]
      omega
  · simp [hraise]

/-- The partition computed by the `classify_columns` loop, in filter/map
form. -/
lemma classify_columns_eq (df : Df) :
    classify_columns df =
      ((df.cols.filter (fun c => columnIsNumeric c.2)).map Prod.fst,
       (df.cols.filter (fun c => !columnIsNumeric c.2)).map Prod.fst) := by
  unfold classify_columns
  induction df.cols with
  | nil => rfl
  | cons c rest ih =>
    simp only [List.foldr_cons, ih, List.filter_cons]
    rcases h : columnIsNumeric c.2 with _ | _ <;> simp [h]

/-- The pie branch's column-minimum check. -/
lemma generate_chart_pie_error (render : Except String String) (title : String)
    (df : Df) (hne : df.isEmpty = false)
    (h : (classify_columns df).2.length < 1 ∨ (classify_columns df).1.length < 1) :
    generate_chart (Except.ok df) render "pie" title =
      ChartOutcome.error
        "Para gráfico de pizza, é necessário pelo menos 1 coluna categórica e 1 numérica." := by
  simp only [generate_chart]
  rw [if_neg (by simp [hne]), if_pos trivial, if_pos h]

/-- The scatter branch's column-minimum check. -/
lemma generate_chart_scatter_error (render : Except String String) (title : String)
    (df : Df) (hne : df.isEmpty = false)
    (h : (classify_columns df).1.length < 2) :
    generate_chart (Except.ok df) render "scatter" title =
      ChartOutcome.error "Scatter requer pelo menos 2 colunas numéricas (para X e Y)." := by
  simp only [generate_chart]
  rw [if_neg (by simp [hne]), if_neg (by decide), if_neg (by decide), if_pos trivial,
    if_pos h]

/-- The heatmap branch's column-minimum check. -/
lemma generate_chart_heatmap_error (render : Except String String) (title : String)
    (df : Df) (hne : df.isEmpty = false)
    (h : (classify_columns df).2.length < 2 ∨ (classify_columns df).1.length < 1) :
    generate_chart (Except.ok df) render "heatmap" title =
      ChartOutcome.error "Heatmap requer pelo menos 2 colunas categóricas e 1 coluna numérica." := by
  simp only [generate_chart]
  rw [if_neg (by simp [hne]), if_neg (by decide), if_neg (by decide), if_neg (by decide),
    if_pos trivial, if_pos h]

/-- The bar/line branch's fall-through error, which interpolates the
observed column counts. -/
lemma generate_chart_barline_error (render : Except String String) (title : String)
    (df : Df) (ct : String) (hct : ct = "bar" ∨ ct = "line")
    (hne : df.isEmpty = false)
    (h1 : ¬((classify_columns df).2.length = 0 ∧ (classify_columns df).1.length ≥ 1))
    (h2 : ¬((classify_columns df).2.length = 1 ∧ (classify_columns df).1.length ≥ 1))
    (h3 : ¬((classify_columns df).2.length ≥ 2 ∧ (classify_columns df).1.length ≥ 1)) :
    generate_chart (Except.ok df) render ct title =
      ChartOutcome.error ("Não foi possível gerar gráfico '" ++ ct ++ "' com "
        ++ toString (classify_columns df).2.length ++ " colunas categóricas e "
        ++ toString (classify_columns df).1.length ++ " colunas numéricas.") := by
  rcases hct with rfl | rfl <;>
  · simp only [generate_chart]
    rw [if_neg (by simp [hne]), if_neg (by decide), if_pos (by simp),
      if_neg h1, if_neg h2, if_neg h3]

/-- The tool-call loop, in `filterMap` form: one message per registered
call, in call order, skipping unregistered names. -/
lemma runToolCalls_eq_filterMap (tools : String → Option (String → ToolResult))
    (calls : List ToolCall) :
    runToolCalls tools calls = calls.filterMap (fun tc =>
      (tools tc.name).map (fun tool =>
        ⟨normalize_observation (tool tc.args), tc.id⟩)) := by
  induction calls with
  | nil => rfl
  | cons tc rest ih =>
    rw [List.filterMap_cons]
    unfold runToolCalls
    rcases h : tools tc.name with _ | tool <;> simp [h, ih]

/-- C1: within one invocation of the chart path, each visit to the chart
LLM-call node increments `iterations` exactly once (after `N` visits it
equals `N`, starting from the `0` set by `invoke`); `should_continue`
routes to `END` whenever `iterations ≥ max_iterations`; hence the chart
loop reaches `END` with at most `max_iterations` LLM-call visits,
regardless of message content (the LLM and tool outputs are universally
quantified oracles). -/
theorem c1_chart_loop_terminates_at_ceiling
    (llm toolRes : ChatState → List Msg) (max_iterations erros : Nat)
    (s : ChatState) (h0 : s.iterations = 0) (hmax : 0 < max_iterations) :
    (ChatGraph.llm_call_wrapper llm s).iterations = s.iterations + 1 ∧
    (∀ (e : Nat) (t : ChatState), max_iterations ≤ t.iterations →
      (ChatGraph.should_continue max_iterations e t).1 = Decision.End) ∧
    (ChatGraph.chartLoop llm toolRes max_iterations erros s).state.iterations =
      (ChatGraph.chartLoop llm toolRes max_iterations erros s).visits ∧
    (ChatGraph.chartLoop llm toolRes max_iterations erros s).visits ≤ max_iterations := by
  refine ⟨ChatGraph.llm_call_wrapper_iterations llm s,
    fun e t ht => ChatGraph.should_continue_end_of_ge max_iterations e t ht, ?_, ?_⟩
  · have := ChatGraph.chartLoop_iterations llm toolRes max_iterations erros s
    rw [h0] at this
    simpa using this
  · have := ChatGraph.chartLoop_visits_le llm toolRes max_iterations erros s
      (by rw [h0]; exact hmax)
    rw [h0] at this
    simpa using this

/-- C1 witness: the default ceiling `5`, a concrete initial state and
concrete LLM/tool oracles. -/
theorem c1_chart_loop_terminates_at_ceiling_witness :
    (ChatState.iterations ⟨"7", "plot revenue", none, 0, [], true⟩ = 0) ∧ 0 < 5 ∧
    ((ChatGraph.llm_call_wrapper (fun _ => [⟨"sql", none⟩])
        ⟨"7", "plot revenue", none, 0, [], true⟩).iterations =
      ChatState.iterations ⟨"7", "plot revenue", none, 0, [], true⟩ + 1 ∧
    (∀ (e : Nat) (t : ChatState), 5 ≤ t.iterations →
      (ChatGraph.should_continue 5 e t).1 = Decision.End) ∧
    (ChatGraph.chartLoop (fun _ => [⟨"sql", none⟩]) (fun _ => [⟨"rows", none⟩]) 5 0
        ⟨"7", "plot revenue", none, 0, [], true⟩).state.iterations =
      (ChatGraph.chartLoop (fun _ => [⟨"sql", none⟩]) (fun _ => [⟨"rows", none⟩]) 5 0
        ⟨"7", "plot revenue", none, 0, [], true⟩).visits ∧
    (ChatGraph.chartLoop (fun _ => [⟨"sql", none⟩]) (fun _ => [⟨"rows", none⟩]) 5 0
        ⟨"7", "plot revenue", none, 0, [], true⟩).visits ≤ 5) :=
  ⟨rfl, by decide,
    c1_chart_loop_terminates_at_ceiling (fun _ => [⟨"sql", none⟩])
      (fun _ => [⟨"rows", none⟩]) 5 0 ⟨"7", "plot revenue", none, 0, [], true⟩
      rfl (by decide)⟩

/-- C2: during the chart loop (non-empty message list, counter below the
ceiling), `should_continue` updates the consecutive-error counter by
incrementing it when the last message's content contains
`"ProgrammingError"` or `"Unknown column"` and resetting it to zero
otherwise, and routes to `END` whenever the updated streak exceeds `3`;
concretely, four consecutive error-signature checks return `Action` with
streaks `1`, `2`, `3` and then `END` with streak `4` on the fourth check,
while a non-error message resets a streak of `3` back to `0`. -/
theorem c2_consecutive_error_streak
    (max_iterations erros : Nat) (s : ChatState) (last : Msg)
    (hlast : s.messages.getLast? = some last)
    (hit : s.iterations < max_iterations) :
    ((ChatGraph.should_continue max_iterations erros s).2 =
        ChatGraph.count_errors_consecutivos erros last ∧
      ChatGraph.count_errors_consecutivos erros last =
        (if strContains last.content "ProgrammingError" ||
            strContains last.content "Unknown column" then erros + 1 else 0) ∧
      (ChatGraph.count_errors_consecutivos erros last > 3 →
        (ChatGraph.should_continue max_iterations erros s).1 = Decision.End)) ∧
    (ChatGraph.should_continue 5 0
        ⟨"c", "q", none, 1, [⟨"ProgrammingError: 1054", none⟩], true⟩ =
      (Decision.Action, 1) ∧
    ChatGraph.should_continue 5 1
        ⟨"c", "q", none, 2, [⟨"ProgrammingError: 1054", none⟩], true⟩ =
      (Decision.Action, 2) ∧
    ChatGraph.should_continue 5 2
        ⟨"c", "q", none, 3, [⟨"ProgrammingError: 1054", none⟩], true⟩ =
      (Decision.Action, 3) ∧
    ChatGraph.should_continue 5 3
        ⟨"c", "q", none, 4, [⟨"ProgrammingError: 1054", none⟩], true⟩ =
      (Decision.End, 4) ∧
    ChatGraph.should_continue 5 3
        ⟨"c", "q", none, 4, [⟨"Here is the corrected SQL.", none⟩], true⟩ =
      (Decision.Action, 0)) := by
  refine ⟨⟨?_, ?_, ?_⟩, by decide, by decide, by decide, by decide, by decide⟩
  · unfold ChatGraph.should_continue
    rw [if_neg (by omega)]
    simp only [hlast]
    by_cases h3 : ChatGraph.count_errors_consecutivos erros last > 3
    · simp [h3]
    · by_cases himg : (pyTruthy last.content &&
        strStartsWith last.content "data:image/png;base64") = true
      · simp [h3, himg]
      · simp [h3, himg]
  · unfold ChatGraph.count_errors_consecutivos
    rfl
  · intro h3
    unfold ChatGraph.should_continue
    rw [if_neg (by omega)]
    simp [hlast, h3]

/-- C2 witness: a concrete loop state whose last message carries the
`ProgrammingError` signature, below the iteration ceiling. -/
theorem c2_consecutive_error_streak_witness :
    (ChatState.messages
        ⟨"c", "q", none, 1, [⟨"ProgrammingError: 1054", none⟩], true⟩).getLast? =
      some ⟨"ProgrammingError: 1054", none⟩ ∧
    ChatState.iterations ⟨"c", "q", none, 1, [⟨"ProgrammingError: 1054", none⟩], true⟩ < 5 ∧
    ((ChatGraph.should_continue 5 0
        ⟨"c", "q", none, 1, [⟨"ProgrammingError: 1054", none⟩], true⟩).2 =
      ChatGraph.count_errors_consecutivos 0 ⟨"ProgrammingError: 1054", none⟩) :=
  ⟨rfl, by decide,
    (c2_consecutive_error_streak 5 0
      ⟨"c", "q", none, 1, [⟨"ProgrammingError: 1054", none⟩], true⟩
      ⟨"ProgrammingError: 1054", none⟩ rfl (by decide)).1.1⟩

/-- C3: when the last message's content starts with
`"data:image/png;base64"`, both `should_continue` and
`should_end_after_environment` route to `END`, for every iteration count
(in particular below the ceiling) and every error-counter value. -/
theorem c3_image_prefix_ends_loop
    (max_iterations erros : Nat) (s : ChatState) (last : Msg)
    (hlast : s.messages.getLast? = some last)
    (hpre : strStartsWith last.content "data:image/png;base64" = true) :
    (ChatGraph.should_continue max_iterations erros s).1 = Decision.End ∧
    ChatGraph.should_end_after_environment s = Decision.End := by
  have htru := ChatGraph.pyTruthy_of_image_uri last.content hpre
  constructor
  · unfold ChatGraph.should_continue
    by_cases hm : s.iterations ≥ max_iterations
    · simp [hm]
    · rw [if_neg hm]
      simp only [hlast]
      by_cases h3 : ChatGraph.count_errors_consecutivos erros last > 3
      · simp [h3]
      · simp [h3, htru, hpre]
  · unfold ChatGraph.should_end_after_environment
    simp [hlast, htru, hpre]

/-- C3 witness: a state whose last message is an image data URI, with
`iterations = 1 < 5` and a zero error counter. -/
theorem c3_image_prefix_ends_loop_witness :
    (ChatState.messages
        ⟨"c", "q", none, 1, [⟨"data:image/png;base64,iVBOR", none⟩], true⟩).getLast? =
      some ⟨"data:image/png;base64,iVBOR", none⟩ ∧
    strStartsWith "data:image/png;base64,iVBOR" "data:image/png;base64" = true ∧
    ((ChatGraph.should_continue 5 0
        ⟨"c", "q", none, 1, [⟨"data:image/png;base64,iVBOR", none⟩], true⟩).1 =
          Decision.End ∧
      ChatGraph.should_end_after_environment
        ⟨"c", "q", none, 1, [⟨"data:image/png;base64,iVBOR", none⟩], true⟩ =
          Decision.End) :=
  ⟨rfl, by decide,
    c3_image_prefix_ends_loop 5 0
      ⟨"c", "q", none, 1, [⟨"data:image/png;base64,iVBOR", none⟩], true⟩
      ⟨"data:image/png;base64,iVBOR", none⟩ rfl (by decide)⟩

/-- C4: for every non-empty tabular result, `generate_chart` returns an
error outcome — never an image — whenever the classified column mix
violates the per-type minimum: pie with fewer than 1 categorical or fewer
than 1 numeric column; scatter with fewer than 2 numeric columns; heatmap
with fewer than 2 categorical or fewer than 1 numeric column; bar/line
with any column mix other than the three supported sub-cases (which is
exactly the case of zero numeric columns). -/
theorem c4_chart_minimum_columns (render : Except String String) (title : String)
    (df : Df) (hne : df.isEmpty = false) :
    ((classify_columns df).2.length < 1 ∨ (classify_columns df).1.length < 1 →
      generate_chart (Except.ok df) render "pie" title =
        ChartOutcome.error
          "Para gráfico de pizza, é necessário pelo menos 1 coluna categórica e 1 numérica.") ∧
    ((classify_columns df).1.length < 2 →
      generate_chart (Except.ok df) render "scatter" title =
        ChartOutcome.error "Scatter requer pelo menos 2 colunas numéricas (para X e Y).") ∧
    ((classify_columns df).2.length < 2 ∨ (classify_columns df).1.length < 1 →
      generate_chart (Except.ok df) render "heatmap" title =
        ChartOutcome.error
          "Heatmap requer pelo menos 2 colunas categóricas e 1 coluna numérica.") ∧
    (∀ ct, (ct = "bar" ∨ ct = "line") →
      ¬((classify_columns df).2.length = 0 ∧ (classify_columns df).1.length ≥ 1) →
      ¬((classify_columns df).2.length = 1 ∧ (classify_columns df).1.length ≥ 1) →
      ¬((classify_columns df).2.length ≥ 2 ∧ (classify_columns df).1.length ≥ 1) →
      generate_chart (Except.ok df) render ct title =
        ChartOutcome.error ("Não foi possível gerar gráfico '" ++ ct ++ "' com "
          ++ toString (classify_columns df).2.length ++ " colunas categóricas e "
          ++ toString (classify_columns df).1.length ++ " colunas numéricas.")) :=
  ⟨generate_chart_pie_error render title df hne,
   generate_chart_scatter_error render title df hne,
   generate_chart_heatmap_error render title df hne,
   fun ct hct => generate_chart_barline_error render title df ct hct hne⟩

/-- C4 witness: a non-empty single-numeric-column result fails the pie,
heatmap and bar minimums, and a no-categorical two-row result fails
scatter when it has fewer than two numeric columns. -/
theorem c4_chart_minimum_columns_witness :
    Df.isEmpty ⟨[("x", [Cell.num 1, Cell.num 2])]⟩ = false ∧
    ((classify_columns ⟨[("x", [Cell.num 1, Cell.num 2])]⟩).2.length < 1 ∨
      (classify_columns ⟨[("x", [Cell.num 1, Cell.num 2])]⟩).1.length < 1) ∧
    generate_chart (Except.ok ⟨[("x", [Cell.num 1, Cell.num 2])]⟩) (Except.ok "PNG")
        "pie" "" =
      ChartOutcome.error
        "Para gráfico de pizza, é necessário pelo menos 1 coluna categórica e 1 numérica." :=
  ⟨by decide, by decide,
    (c4_chart_minimum_columns (Except.ok "PNG") "" ⟨[("x", [Cell.num 1, Cell.num 2])]⟩
      (by decide)).1 (by decide)⟩

/-- C5: `classify_columns` partitions the columns of a tabular result into
two disjoint lists that together cover all columns; a column is classified
numeric iff its coercion does not raise and the fraction of its cells that
coerce to a number is at least 0.8 (a column whose coercion raises is
classified categorical); at the boundary, exactly 80 parseable cells out
of 100 classify numeric while 79 classify categorical; and the function is
total — it never fails, it only classifies. -/
theorem c5_classify_columns_partition (df : Df)
    (hnd : (df.cols.map Prod.fst).Nodup) :
    ((∀ n, n ∈ (classify_columns df).1 → n ∉ (classify_columns df).2) ∧
     (∀ n, n ∈ df.cols.map Prod.fst ↔
        (n ∈ (classify_columns df).1 ∨ n ∈ (classify_columns df).2)) ∧
     (∀ p ∈ df.cols, (p.1 ∈ (classify_columns df).1 ↔
        (p.2.any cellRaises = false ∧ parseFraction p.2 ≥ (4 : ℚ)/5))) ∧
     (∀ p ∈ df.cols, p.2.any cellRaises = true →
        p.1 ∈ (classify_columns df).2)) ∧
    columnIsNumeric
      (List.replicate 80 (Cell.numStr 1) ++ List.replicate 20 (Cell.nonNum "x")) = true ∧
    columnIsNumeric
      (List.replicate 79 (Cell.numStr 1) ++ List.replicate 21 (Cell.nonNum "x")) = false := by
  have hc1 : (classify_columns df).1 =
      (df.cols.filter (fun c => columnIsNumeric c.2)).map Prod.fst := by
    rw [classify_columns_eq]
  have hc2 : (classify_columns df).2 =
      (df.cols.filter (fun c => !columnIsNumeric c.2)).map Prod.fst := by
    rw [classify_columns_eq]
  refine ⟨⟨?_, ?_, ?_, ?_⟩, by decide, by decide⟩
  · intro n h1 h2
    rw [hc1] at h1
    rw [hc2] at h2
    obtain ⟨p, hpf, hpn⟩ := List.mem_map.mp h1
    obtain ⟨q, hqf, hqn⟩ := List.mem_map.mp h2
    rw [List.mem_filter] at hpf hqf
    have hpq : p = q :=
      List.inj_on_of_nodup_map hnd hpf.1 hqf.1 (by rw [hpn, hqn])
    have hqfalse : columnIsNumeric q.2 = false := by
      simpa using hqf.2
    rw [hpq, hqfalse] at hpf
    exact Bool.false_ne_true hpf.2
  · intro n
    constructor
    · intro hn
      obtain ⟨p, hp, hpn⟩ := List.mem_map.mp hn
      rcases hcN : columnIsNumeric p.2 with _ | _
      · right
        rw [hc2]
        exact List.mem_map.mpr ⟨p, List.mem_filter.mpr ⟨hp, by simp [hcN]⟩, hpn⟩
      · left
        rw [hc1]
        exact List.mem_map.mpr ⟨p, List.mem_filter.mpr ⟨hp, hcN⟩, hpn⟩
    · intro hn
      rcases hn with h | h
      · rw [hc1] at h
        obtain ⟨p, hpf, hpn⟩ := List.mem_map.mp h
        exact List.mem_map.mpr ⟨p, (List.mem_filter.mp hpf).1, hpn⟩
      · rw [hc2] at h
        obtain ⟨p, hpf, hpn⟩ := List.mem_map.mp h
        exact List.mem_map.mpr ⟨p, (List.mem_filter.mp hpf).1, hpn⟩
  · intro p hp
    rw [← columnIsNumeric_iff_parseFraction]
    constructor
    · intro h
      rw [hc1] at h
      obtain ⟨q, hqf, hqn⟩ := List.mem_map.mp h
      rw [List.mem_filter] at hqf
      have hqp : q = p := List.inj_on_of_nodup_map hnd hqf.1 hp hqn
      rw [← hqp]
      exact hqf.2
    · intro h
      rw [hc1]
      exact List.mem_map.mpr ⟨p, List.mem_filter.mpr ⟨hp, h⟩, rfl⟩
  · intro p hp hraise
    rw [hc2]
    refine List.mem_map.mpr ⟨p, List.mem_filter.mpr ⟨hp, ?_⟩, rfl⟩
    simp [columnIsNumeric, hraise]

/-- C5 witness: a two-column result with distinct column names; the
boundary columns are checked through the theorem as well. -/
theorem c5_classify_columns_partition_witness :
    ((Df.cols ⟨[("cat", [Cell.nonNum "a"]), ("val", [Cell.num 3])]⟩).map
        Prod.fst).Nodup ∧
    columnIsNumeric
      (List.replicate 80 (Cell.numStr 1) ++ List.replicate 20 (Cell.nonNum "x")) = true ∧
    columnIsNumeric
      (List.replicate 79 (Cell.numStr 1) ++ List.replicate 21 (Cell.nonNum "x")) = false :=
  ⟨by decide,
    (c5_classify_columns_partition ⟨[("cat", [Cell.nonNum "a"]), ("val", [Cell.num 3])]⟩
      (by decide)).2.1,
    (c5_classify_columns_partition ⟨[("cat", [Cell.nonNum "a"]), ("val", [Cell.num 3])]⟩
      (by decide)).2.2⟩

/-- C6: `generate_chart` never propagates a fault: an exception raised by
the query execution is returned as an error outcome with the exception
text; an empty result yields the fixed "no data found" error; an
unrecognized chart type yields an error naming the allowed set
`{bar, line, pie, scatter, heatmap}`; and on any input where a successful
render would produce an image (the validation passed), a rendering
exception is returned as an error outcome carrying the exception text.
Every result is a `ChartOutcome` (image or error) by construction — the
embedding is a total function. -/
theorem c6_generate_chart_never_raises :
    (∀ (e : String) (render : Except String String) (ct title : String),
      generate_chart (Except.error e) render ct title = ChartOutcome.error e) ∧
    (∀ (df : Df) (render : Except String String) (ct title : String),
      df.isEmpty = true →
      generate_chart (Except.ok df) render ct title =
        ChartOutcome.error "Nenhum dado encontrado pela consulta.") ∧
    (∀ (df : Df) (render : Except String String) (ct title : String),
      df.isEmpty = false → ct ∉ allowedChartTypes →
      generate_chart (Except.ok df) render ct title =
        ChartOutcome.error
          ("Tipo de gráfico '" ++ ct ++ "' não reconhecido. Use: bar, line, pie, scatter, heatmap.")) ∧
    (∀ (df : Df) (b64 e uri msg ct title : String),
      generate_chart (Except.ok df) (Except.ok b64) ct title = ChartOutcome.image uri msg →
      generate_chart (Except.ok df) (Except.error e) ct title = ChartOutcome.error e) := by
  refine ⟨fun e render ct title => rfl, ?_, ?_, ?_⟩
  · intro df render ct title h
    simp only [generate_chart]
    rw [if_pos h]
  · intro df render ct title h hmem
    simp only [allowedChartTypes, List.mem_cons, List.not_mem_nil, or_false, not_or] at hmem
    obtain ⟨h1, h2, h3, h4, h5⟩ := hmem
    simp only [generate_chart]
    rw [if_neg (by simp [h]), if_neg h3, if_neg (by exact fun hor => hor.elim h1 h2),
      if_neg h4, if_neg h5]
  · intro df b64 e uri msg ct title himg
    simp only [generate_chart] at himg ⊢
    repeat' split at himg
    all_goals simp_all [renderFigure]

/-- C6 witness: each guarded conjunct applied at a concrete input — a raised
query, an empty frame, a bogus chart type, and a failing render on a frame
that otherwise produces an image. -/
theorem c6_generate_chart_never_raises_witness :
    (generate_chart (Except.error "ProgrammingError: bad SQL") (Except.ok "PNG") "bar" "" =
      ChartOutcome.error "ProgrammingError: bad SQL") ∧
    (Df.isEmpty ⟨[("x", [])]⟩ = true ∧
      generate_chart (Except.ok ⟨[("x", [])]⟩) (Except.ok "PNG") "bar" "" =
        ChartOutcome.error "Nenhum dado encontrado pela consulta.") ∧
    (Df.isEmpty ⟨[("x", [Cell.num 1])]⟩ = false ∧ "donut" ∉ allowedChartTypes ∧
      generate_chart (Except.ok ⟨[("x", [Cell.num 1])]⟩) (Except.ok "PNG") "donut" "" =
        ChartOutcome.error
          "Tipo de gráfico 'donut' não reconhecido. Use: bar, line, pie, scatter, heatmap.") ∧
    (generate_chart (Except.ok ⟨[("x", [Cell.num 1])]⟩) (Except.ok "PNG") "bar" "" =
        ChartOutcome.image "data:image/png;base64,PNG" "Gráfico 'bar' gerado com sucesso." ∧
      generate_chart (Except.ok ⟨[("x", [Cell.num 1])]⟩) (Except.error "savefig failed")
          "bar" "" =
        ChartOutcome.error "savefig failed") :=
  ⟨c6_generate_chart_never_raises.1 "ProgrammingError: bad SQL" (Except.ok "PNG") "bar" "",
   ⟨by decide,
    c6_generate_chart_never_raises.2.1 ⟨[("x", [])]⟩ (Except.ok "PNG") "bar" "" (by decide)⟩,
   ⟨by decide, by decide,
    c6_generate_chart_never_raises.2.2.1 ⟨[("x", [Cell.num 1])]⟩ (Except.ok "PNG") "donut" ""
      (by decide) (by decide)⟩,
   ⟨by decide,
    c6_generate_chart_never_raises.2.2.2 ⟨[("x", [Cell.num 1])]⟩ "PNG" "savefig failed"
      "data:image/png;base64,PNG" "Gráfico 'bar' gerado com sucesso." "bar" "" (by decide)⟩⟩

/-- C7: `tool_node` produces one `ToolMessage` per executed pending call of
the last message, tagged with the originating call id, with content chosen
by precedence (image data URI, then the "chart generation failed" string
embedding the error, then the stringified result); an unregistered tool
name is skipped without failing the batch; an empty message list or a last
message without accessible tool calls yields `[]` without error. -/
theorem c7_tool_node_dispatch (tools : String → Option (String → ToolResult))
    (s : ChatState) :
    (s.messages = [] → tool_node s tools = []) ∧
    (∀ m, s.messages.getLast? = some m → m.tool_calls = none →
      tool_node s tools = []) ∧
    (∀ m calls, s.messages.getLast? = some m → m.tool_calls = some calls →
      tool_node s tools = calls.filterMap (fun tc =>
        (tools tc.name).map (fun tool =>
          ⟨normalize_observation (tool tc.args), tc.id⟩))) ∧
    (∀ (u : String) (e : Option String) (t : String),
      normalize_observation (ToolResult.dictRes (some u) e t) = u) ∧
    (∀ e t, normalize_observation (ToolResult.dictRes none (some e) t) =
      "Erro ao gerar gráfico: " ++ e) ∧
    (∀ t, normalize_observation (ToolResult.dictRes none none t) = t) ∧
    (∀ t, normalize_observation (ToolResult.plain t) = t) := by
  refine ⟨?_, ?_, ?_, fun u e t => rfl, fun e t => rfl, fun t => rfl, fun t => rfl⟩
  · intro h
    unfold tool_node
    rw [h]
    rfl
  · intro m hm hnone
    unfold tool_node
    rw [hm]
    simp [hnone]
  · intro m calls hm hcalls
    unfold tool_node
    rw [hm]
    simp [hcalls, runToolCalls_eq_filterMap]

/-- C7 witness: a batch with an image-producing call, an error-producing
call, an unregistered call and a plain-text call. -/
theorem c7_tool_node_dispatch_witness :
    (ChatState.messages ⟨"c", "q", none, 1,
        [⟨"", some [⟨"generate_chart", "a1", "id1"⟩, ⟨"ghost_tool", "a2", "id2"⟩,
          ⟨"consult_database", "a3", "id3"⟩]⟩], true⟩).getLast? =
      some ⟨"", some [⟨"generate_chart", "a1", "id1"⟩, ⟨"ghost_tool", "a2", "id2"⟩,
        ⟨"consult_database", "a3", "id3"⟩]⟩ ∧
    Msg.tool_calls ⟨"", some [⟨"generate_chart", "a1", "id1"⟩, ⟨"ghost_tool", "a2", "id2"⟩,
        ⟨"consult_database", "a3", "id3"⟩]⟩ =
      some [⟨"generate_chart", "a1", "id1"⟩, ⟨"ghost_tool", "a2", "id2"⟩,
        ⟨"consult_database", "a3", "id3"⟩] ∧
    tool_node ⟨"c", "q", none, 1,
        [⟨"", some [⟨"generate_chart", "a1", "id1"⟩, ⟨"ghost_tool", "a2", "id2"⟩,
          ⟨"consult_database", "a3", "id3"⟩]⟩], true⟩
      (fun n =>
        if n = "generate_chart" then
          some (fun _ => ToolResult.dictRes (some "data:image/png;base64,PNG") none "{}")
        else if n = "consult_database" then
          some (fun _ => ToolResult.plain "(1,)")
        else none) =
      [⟨"data:image/png;base64,PNG", "id1"⟩, ⟨"(1,)", "id3"⟩] := by
  refine ⟨rfl, rfl, ?_⟩
  have h := (c7_tool_node_dispatch
    (fun n =>
      if n = "generate_chart" then
        some (fun _ => ToolResult.dictRes (some "data:image/png;base64,PNG") none "{}")
      else if n = "consult_database" then
        some (fun _ => ToolResult.plain "(1,)")
      else none)
    ⟨"c", "q", none, 1,
      [⟨"", some [⟨"generate_chart", "a1", "id1"⟩, ⟨"ghost_tool", "a2", "id2"⟩,
        ⟨"consult_database", "a3", "id3"⟩]⟩], true⟩).2.2.1
    ⟨"", some [⟨"generate_chart", "a1", "id1"⟩, ⟨"ghost_tool", "a2", "id2"⟩,
      ⟨"consult_database", "a3", "id3"⟩]⟩
    [⟨"generate_chart", "a1", "id1"⟩, ⟨"ghost_tool", "a2", "id2"⟩,
      ⟨"consult_database", "a3", "id3"⟩] rfl rfl
  rw [h]
  rfl

set_option maxRecDepth 4096 in
/-- C8 counterexample: a result with zero categorical and one numeric
column sent to the heatmap branch produces a column-count error whose
message is a fixed string naming the required minima; the digit `0` does
not occur in it, so the actual observed categorical count (0) is not
named. -/
theorem c8_heatmap_message_counterexample :
    generate_chart (Except.ok ⟨[("x", [Cell.num 1, Cell.num 2])]⟩) (Except.ok "PNG")
        "heatmap" "" =
      ChartOutcome.error "Heatmap requer pelo menos 2 colunas categóricas e 1 coluna numérica." ∧
    (classify_columns ⟨[("x", [Cell.num 1, Cell.num 2])]⟩).2.length = 0 ∧
    (classify_columns ⟨[("x", [Cell.num 1, Cell.num 2])]⟩).1.length = 1 ∧
    strContains "Heatmap requer pelo menos 2 colunas categóricas e 1 coluna numérica."
      "0" = false := by
  decide

/-- C8 (amended): the bar and line branches' column-count error message
interpolates the actual observed categorical and numeric column counts;
the heatmap branch's column-count error message is the fixed
minimum-requirements string, which does not name the observed counts. -/
theorem c8_column_count_error_messages_amended
    (render : Except String String) (title : String) (df : Df)
    (hne : df.isEmpty = false) :
    (∀ ct, (ct = "bar" ∨ ct = "line") →
      ¬((classify_columns df).2.length = 0 ∧ (classify_columns df).1.length ≥ 1) →
      ¬((classify_columns df).2.length = 1 ∧ (classify_columns df).1.length ≥ 1) →
      ¬((classify_columns df).2.length ≥ 2 ∧ (classify_columns df).1.length ≥ 1) →
      generate_chart (Except.ok df) render ct title =
        ChartOutcome.error ("Não foi possível gerar gráfico '" ++ ct ++ "' com "
          ++ toString (classify_columns df).2.length ++ " colunas categóricas e "
          ++ toString (classify_columns df).1.length ++ " colunas numéricas.")) ∧
    ((classify_columns df).2.length < 2 ∨ (classify_columns df).1.length < 1 →
      generate_chart (Except.ok df) render "heatmap" title =
        ChartOutcome.error
          "Heatmap requer pelo menos 2 colunas categóricas e 1 coluna numérica.") :=
  ⟨fun ct hct => generate_chart_barline_error render title df ct hct hne,
   generate_chart_heatmap_error render title df hne⟩

/-- C8 witness: a one-categorical-zero-numeric result sent to the bar
branch reports `1` categorical and `0` numeric columns in its message. -/
theorem c8_column_count_error_messages_amended_witness :
    Df.isEmpty ⟨[("name", [Cell.nonNum "a", Cell.nonNum "b"])]⟩ = false ∧
    generate_chart (Except.ok ⟨[("name", [Cell.nonNum "a", Cell.nonNum "b"])]⟩)
        (Except.ok "PNG") "bar" "" =
      ChartOutcome.error
        ("Não foi possível gerar gráfico '" ++ "bar" ++ "' com "
          ++ toString (classify_columns
                ⟨[("name", [Cell.nonNum "a", Cell.nonNum "b"])]⟩).2.length
          ++ " colunas categóricas e "
          ++ toString (classify_columns
                ⟨[("name", [Cell.nonNum "a", Cell.nonNum "b"])]⟩).1.length
          ++ " colunas numéricas.") :=
  ⟨by decide,
   (c8_column_count_error_messages_amended (Except.ok "PNG") ""
      ⟨[("name", [Cell.nonNum "a", Cell.nonNum "b"])]⟩ (by decide)).1
     "bar" (Or.inl rfl) (by decide) (by decide) (by decide)⟩

/-- C9: `ChatGraph.invoke` never raises on recursion-depth exhaustion: when
the graph engine reports a `GraphRecursionError`, `invoke` returns a
result whose `messages` list is exactly one synthetic agent message asking
the user to refine the query. -/
theorem c9_invoke_catches_recursion_error
    (run : ChatState → GraphRunResult) (chat_id user_question : String)
    (file : Option String) (e : String)
    (h : run (ChatGraph.initial_state chat_id user_question file) =
      GraphRunResult.recursionError e) :
    (ChatGraph.invoke run chat_id user_question file).messages =
      [InvokeMessage.dict ⟨"agent",
        "O fluxo excedeu o limite de iterações. Por favor, refine sua consulta ou tente novamente."⟩] ∧
    (ChatGraph.invoke run chat_id user_question file).messages.length = 1 := by
  unfold ChatGraph.invoke
  rw [h]
  exact ⟨rfl, rfl⟩

/-- C9 witness: an engine run that raises the recursion-limit error. -/
theorem c9_invoke_catches_recursion_error_witness :
    ((fun _ : ChatState => GraphRunResult.recursionError "Recursion limit of 25 reached")
        (ChatGraph.initial_state "7" "plot revenue" none) =
      GraphRunResult.recursionError "Recursion limit of 25 reached") ∧
    (ChatGraph.invoke
        (fun _ => GraphRunResult.recursionError "Recursion limit of 25 reached")
        "7" "plot revenue" none).messages =
      [InvokeMessage.dict ⟨"agent",
        "O fluxo excedeu o limite de iterações. Por favor, refine sua consulta ou tente novamente."⟩] :=
  ⟨rfl,
   (c9_invoke_catches_recursion_error
      (fun _ => GraphRunResult.recursionError "Recursion limit of 25 reached")
      "7" "plot revenue" none "Recursion limit of 25 reached" rfl).1⟩

/-- C10: `consult_database` returns the fixed rejection message — without
executing the query (the result is independent of the database oracle) —
for every query whose upper-cased text contains any forbidden keyword as a
substring, including read-only queries that merely contain such a keyword
inside an identifier. -/
theorem c10_consult_database_keyword_rejection
    (execute execute2 : String → DbExec) (query : String)
    (h : ∃ cmd ∈ forbidden_commands, strContains (pyUpper query) cmd = true) :
    consult_database execute query = "❌ Apenas consultas de leitura são permitidas." ∧
    consult_database execute query = consult_database execute2 query := by
  have hany : forbidden_commands.any
      (fun cmd => strContains (pyUpper query) cmd) = true := by
    rw [List.any_eq_true]
    obtain ⟨cmd, hmem, hc⟩ := h
    exact ⟨cmd, hmem, hc⟩
  unfold consult_database
  rw [if_pos hany]
  exact ⟨rfl, by rw [if_pos hany]⟩

set_option maxRecDepth 8192 in
/-- C10 witness: a read-only `SELECT` whose only brush with the forbidden
list is the substring `UPDATE` inside the identifier `updated_at`; two
different database oracles give the same rejection. -/
theorem c10_consult_database_keyword_rejection_witness :
    (∃ cmd ∈ forbidden_commands,
      strContains (pyUpper "SELECT updated_at FROM logs") cmd = true) ∧
    consult_database (fun _ => DbExec.rows ["(1,)"]) "SELECT updated_at FROM logs" =
      "❌ Apenas consultas de leitura são permitidas." ∧
    consult_database (fun _ => DbExec.rows ["(1,)"]) "SELECT updated_at FROM logs" =
      consult_database (fun _ => DbExec.raises "unreachable") "SELECT updated_at FROM logs" :=
  ⟨by decide,
   (c10_consult_database_keyword_rejection (fun _ => DbExec.rows ["(1,)"])
      (fun _ => DbExec.raises "unreachable") "SELECT updated_at FROM logs" (by decide)).1,
   (c10_consult_database_keyword_rejection (fun _ => DbExec.rows ["(1,)"])
      (fun _ => DbExec.raises "unreachable") "SELECT updated_at FROM logs" (by decide)).2⟩

